import Mathlib

/-!
# bulb: onion-service commands and the OnionListener lifecycle

A shallow embedding of `cmd_onion.go` (`AddOnion`, `DeleteOnion`) and of
`utils/connection.go` (`OnionListener` and its helpers).

Go strings are modelled as lists of characters.  A Go call either returns
normally, returns a non-nil `error`, or panics at run time (index out of range,
nil dereference); `Outcome` keeps the three apart.  The collaborators that are
outside the two files (the control connection, the file system calls, the TCP
listener) are explicit parameters (`Env`) and explicit state (`World`).
-/

namespace Bulb

/-- Go `string`, as the list of its characters. -/
abbrev Str := List Char

/-- How a Go call ends: normal return, a non-nil `error`, or a run-time panic. -/
inductive Outcome (α : Type) where
  | ok (a : α)
  | err (e : Str)
  | panic
  deriving DecidableEq, Repr

/-! ## Library functions used by the source -/

/-- Go `strings.Index(s, sep)`: position of the leftmost occurrence of `sep` in `s`
(`none` for Go's `-1`). -/
def Index : Str → Str → Option Nat
  | [], sep => if sep.isPrefixOf [] then some 0 else none
  | c :: s, sep =>
    if sep.isPrefixOf (c :: s) then some 0 else (Index s sep).map (· + 1)

/-- The loop of Go `strings.Split` (`genSplit`) for a non-empty separator: cut at the
leftmost occurrence of `sep`, go on behind it; the last piece is what remains.  The
first argument bounds the number of cuts. -/
def splitLoop (sep : Str) : Nat → Str → List Str
  | 0, s => [s]
  | n + 1, s =>
    match Index s sep with
    | none => [s]
    | some m => s.take m :: splitLoop sep n (s.drop (m + sep.length))

/-- Go `strings.Split(s, sep)` for a non-empty `sep`.  A string of length `n` has at
most `n` non-overlapping occurrences of `sep`, so `n` cuts are always enough. -/
def Split (s sep : Str) : List Str := splitLoop sep s.length s

/-- Go indexing `fields[i]`: panics when `i` is out of range. -/
def index (fields : List Str) (i : Nat) : Outcome Str :=
  match fields.get? i with
  | some f => .ok f
  | none => .panic

/-- Go `fmt` verb `%d` on an `int`. -/
def fmtInt : Int → Str
  | .ofNat k => Nat.toDigits 10 k
  | .negSucc k => '-' :: Nat.toDigits 10 (k + 1)

/-! ## Data model -/

/-- The struct `OnionInfo` of `cmd_onion.go`: the result of the AddOnion command.
`RawResponse` keeps the reply body the fields were cut from. -/
structure OnionInfo where
  OnionId : Str
  KeyType : Str
  Key : Str
  RawResponse : Str
  deriving DecidableEq, Repr

/-- The struct `OnionAddr` of `connection.go`. -/
structure OnionAddr where
  network : Str
  address : Str
  deriving DecidableEq, Repr

/-- The struct `OnionListenerOptions` of `connection.go`. -/
structure OnionListenerOptions where
  OnionKeyFile : Str
  OnionServicePort : Int
  LocalAddr : Str
  ControlAddr : Str
  ControlNetwork : Str
  ControlPassword : Str
  deriving DecidableEq, Repr

/-- A dialled control connection (`*bulb.Conn`), identified by what was dialled. -/
structure Conn where
  network : Str
  addr : Str
  deriving DecidableEq, Repr

/-- A bound local listener (`net.Listener`), identified by its address. -/
structure Listener where
  addr : Str
  deriving DecidableEq, Repr

/-- The struct `OnionListener` of `connection.go`.  Its four fields are pointers or
interfaces in Go, so each of them may be nil (`none`). -/
structure OnionListener where
  options : Option OnionListenerOptions
  controller : Option Conn
  onionInfo : Option OnionInfo
  localListener : Option Listener
  deriving DecidableEq, Repr

/-- The collaborators outside the two source files, as parameters: what `bulb.Dial`,
`Conn.Authenticate`, `Conn.Request`, `ioutil.WriteFile`, `net.Listen` and
`net.Listener.Accept` answer.  `request` gets the commands already passed to `Request`
on the session and the new command, and answers an error or the reply body
(`fmt.Sprintf("%s", response.Data)`). -/
structure Env where
  dialErr : Option Str
  authErr : Option Str
  request : List Str → Str → Except Str Str
  writeErr : Option Str
  listenErr : Option Str
  accept : Except Str Nat

/-- The mutable surroundings: the files by path (`ioutil.ReadFile` answers an error or
the content) and the command lines that the code of the two files has passed to
`Conn.Request` so far, oldest first (what `Conn.Authenticate` itself sends is outside
the two files and not recorded). -/
structure World where
  fs : Str → Except Str Str
  sent : List Str

/-- Go `fmt.Errorf(fmt ++ "%s\n", err)`. -/
def errorf (msg e : Str) : Str := msg ++ e ++ "\n".toList

/-! ## cmd_onion.go -/

/-- The command line `AddOnion` builds (lines 27 to 35). -/
def addOnionRequest (virtPort : Int) (target keyType keyContent : Str) (new : Bool) : Str :=
  let request := "ADD_ONION ".toList
  let request :=
    if new then request ++ "NEW:BEST".toList
    else request ++ (keyType ++ ":".toList ++ keyContent)
  request ++ (" Port=".toList ++ fmtInt virtPort ++ ",".toList ++ target ++ "\n".toList)

/-- The reply parsing of `AddOnion` (lines 42 to 55), on the reply body `data`. -/
def parseAddOnionReply (data : Str) (new : Bool) : Outcome OnionInfo :=
  let fields := Split data "ServiceID=".toList
  match index fields 1 with
  | .panic => .panic
  | .err e => .err e
  | .ok f1 =>
  let fields := Split f1 " ".toList
  match index fields 0 with
  | .panic => .panic
  | .err e => .err e
  | .ok onionId =>
  if new then
    let fields := Split data "PrivateKey=".toList
    match index fields 1 with
    | .panic => .panic
    | .err e => .err e
    | .ok f1 =>
    let fields := Split f1 ":".toList
    match index fields 0 with
    | .panic => .panic
    | .err e => .err e
    | .ok keyType =>
    match index fields 1 with
    | .panic => .panic
    | .err e => .err e
    | .ok f1 =>
    let fields := Split f1 "\n".toList
    match index fields 0 with
    | .panic => .panic
    | .err e => .err e
    | .ok key =>
      .ok { OnionId := onionId, KeyType := keyType, Key := key, RawResponse := data }
  else
    .ok { OnionId := onionId, KeyType := [], Key := [], RawResponse := data }

/-- The method `Conn.AddOnion`: build the command, pass it to `Request`, parse the reply.
The debug print of the request is left out. -/
def AddOnion (env : Env) (w : World) (virtPort : Int) (target keyType keyContent : Str)
    (new : Bool) : Outcome OnionInfo × World :=
  let request := addOnionRequest virtPort target keyType keyContent new
  let w1 : World := { w with sent := w.sent ++ [request] }
  match env.request w.sent request with
  | .error e => (.err e, w1)
  | .ok data => (parseAddOnionReply data new, w1)

/-- The method `OnionAddr.String`. -/
def OnionAddr.String (o : OnionAddr) : Str := o.address

/-- The method `OnionAddr.Network`. -/
def OnionAddr.Network (o : OnionAddr) : Str := o.network

/-- The method `OnionListener.controlAuth`: dial the control port, then authenticate. -/
def controlAuth (env : Env) (o : OnionListener) : Outcome Unit × OnionListener :=
  match o.options with
  | none => (.panic, o)
  | some opts =>
    match env.dialErr with
    | some e =>
      (.err (errorf "OnionListener: Failed to connect to Tor control port: ".toList e),
        { o with controller := none })
    | none =>
      let o1 : OnionListener :=
        { o with controller := some { network := opts.ControlNetwork, addr := opts.ControlAddr } }
      match env.authErr with
      | some e =>
        (.err (errorf "OnionListener: Failed authenticate with Tor control port: ".toList e), o1)
      | none => (.ok (), o1)

/-- The method `OnionListener.readOnionKeyFile`: key type and key content, or the read
error; indexing the split content panics when it has no second field. -/
def readOnionKeyFile (o : OnionListener) (w : World) : Outcome (Str × Str) :=
  match o.options with
  | none => .panic
  | some opts =>
    match w.fs opts.OnionKeyFile with
    | .error e => .err e
    | .ok onionKeyBytes =>
      let fields := Split onionKeyBytes ":".toList
      match index fields 0 with
      | .panic => .panic
      | .err e => .err e
      | .ok f0 =>
        match index fields 1 with
        | .panic => .panic
        | .err e => .err e
        | .ok f1 => .ok (f0, f1)

/-- The method `OnionListener.writeOnionKeyFile`. -/
def writeOnionKeyFile (env : Env) (o : OnionListener) (w : World) (keyType keyContent : Str) :
    Outcome Unit × World :=
  match o.options with
  | none => (.panic, w)
  | some opts =>
    let keyData := keyType ++ ":".toList ++ keyContent
    match env.writeErr with
    | some e => (.err e, w)
    | none =>
      (.ok (), { w with fs := fun path => if path = opts.OnionKeyFile then .ok keyData else w.fs path })

/-- The method `OnionListener.initOnion`.  The locals `keyType` and `keyContent` are
declared at the top and never assigned, so they hold Go's zero value, the empty
string, when they reach `writeOnionKeyFile`. -/
def initOnion (env : Env) (o : OnionListener) (w : World) :
    Outcome Unit × OnionListener × World :=
  let keyType : Str := []
  let keyContent : Str := []
  match o.options with
  | none => (.panic, o, w)
  | some opts =>
    -- `onionKeyType, onionKeyContent, err = o.readOnionKeyFile()`; `err` is overwritten below
    -- (a returned read error leaves both strings empty; `none` stands for a panic)
    let loaded : Option (Str × Str) :=
      if opts.OnionKeyFile ≠ [] then
        match readOnionKeyFile o w with
        | .ok kv => some kv
        | .err _ => some ([], [])
        | .panic => none
      else some ([], [])
    match loaded with
    | none => (.panic, o, w)
    | some (onionKeyType, onionKeyContent) =>
      match controlAuth env o with
      | (.panic, o1) => (.panic, o1, w)
      | (.err e, o1) => (.err e, o1, w)
      | (.ok _, o1) =>
        let added :=
          if onionKeyType ≠ [] then
            AddOnion env w opts.OnionServicePort opts.LocalAddr onionKeyType onionKeyContent false
          else
            AddOnion env w opts.OnionServicePort opts.LocalAddr [] [] true
        match added with
        | (.panic, w1) => (.panic, o1, w1)
        | (.err e, w1) =>
          (.err (errorf "OnionListener: create hidden service fail: ".toList e),
            { o1 with onionInfo := none }, w1)
        | (.ok info, w1) =>
          let o2 : OnionListener := { o1 with onionInfo := some info }
          let written : Outcome Unit × World :=
            if opts.OnionKeyFile ≠ [] then writeOnionKeyFile env o2 w1 keyType keyContent
            else (.ok (), w1)
          match written with
          | (.panic, w2) => (.panic, o2, w2)
          | (.err e, w2) =>
            (.err (errorf "OnionListener: failed to write key file to disk: ".toList e), o2, w2)
          | (.ok _, w2) =>
            match env.listenErr with
            | some e =>
              (.err (errorf "OnionListener: local TCP listen error: ".toList e),
                { o2 with localListener := none }, w2)
            | none =>
              (.ok (), { o2 with localListener := some { addr := opts.LocalAddr } }, w2)

/-- The function `NewOnionListener`. -/
def NewOnionListener (env : Env) (options : Option OnionListenerOptions) (w : World) :
    Outcome OnionListener × World :=
  let listener : OnionListener :=
    { options := options, controller := none, onionInfo := none, localListener := none }
  match options with
  | none => (.panic, w)
  | some opts =>
    if opts.ControlAddr = [] ∨ opts.ControlNetwork = [] then
      (.err "Tor control port address not specified.".toList, w)
    else
      match initOnion env listener w with
      | (.panic, _, w1) => (.panic, w1)
      | (.err e, _, w1) => (.err e, w1)
      | (.ok _, l1, w1) => (.ok l1, w1)

/-- The method `OnionListener.Accept`.  Reading `o.onionInfo.OnionId` dereferences
`o.onionInfo`, and `o.localListener.Accept()` calls through `o.localListener`: either
panics when the field is nil. -/
def Accept (env : Env) (o : OnionListener) : Outcome Nat :=
  match o.onionInfo with
  | none => .panic
  | some info =>
    if info.OnionId = [] then
      .err "OnionListener: onion service not initialized.\n".toList
    else
      match o.localListener with
      | none => .panic
      | some _ =>
        match env.accept with
        | .error e => .err (errorf "OnionListener: local TCP connection Accept failure: ".toList e)
        | .ok conn => .ok conn

/-- The method `OnionListener.Addr`. -/
def Addr (o : OnionListener) : Outcome OnionAddr :=
  match o.onionInfo with
  | none => .panic
  | some info =>
    match o.options with
    | none => .panic
    | some opts =>
      .ok { network := "tor".toList,
            address := info.OnionId ++ ".onion:".toList ++ fmtInt opts.OnionServicePort }

/-- Whether a command line is a DEL_ONION command. -/
def isDelOnion (cmd : Str) : Bool := "DEL_ONION ".toList.isPrefixOf cmd

/-- The positions at which `sep` occurs in `s`, in increasing order. -/
def occurrences (sep : Str) : Str → List Nat
  | [] => if sep.isPrefixOf [] then [0] else []
  | c :: s =>
    (if sep.isPrefixOf (c :: s) then [0] else []) ++ (occurrences sep s).map (· + 1)

/-- The reply body the claim on parsing speaks of. -/
def replyBody (pre id mid kt km post : Str) : Str :=
  pre ++ "ServiceID=".toList ++ id ++ " ".toList ++ mid ++ "PrivateKey=".toList ++ kt
    ++ ":".toList ++ km ++ "\n".toList ++ post

/-! ## Concrete surroundings used to evaluate the code -/

/-- The options of `examples/onion/onion.go`. -/
def exampleOptions : OnionListenerOptions :=
  { OnionKeyFile := "echoOnionKey".toList
    OnionServicePort := 80
    LocalAddr := "127.0.0.1:8080".toList
    ControlAddr := "127.0.0.1:9051".toList
    ControlNetwork := "tcp".toList
    ControlPassword := [] }

/-- Collaborators that all succeed; every request is answered with `body`. -/
def torAnswers (body : Str) : Env :=
  { dialErr := none
    authErr := none
    request := fun _ _ => .ok body
    writeErr := none
    listenErr := none
    accept := .ok 0 }

/-- As `torAnswers`, but the local address cannot be bound. -/
def torAnswersNoBind (body : Str) : Env :=
  { torAnswers body with listenErr := some "bind: address already in use".toList }

/-- A file system without any readable file, and a fresh control session. -/
def noFiles : World :=
  { fs := fun _ => .error "no such file or directory".toList
    sent := [] }

/-- A file system whose only file is `path`, holding `content`; a fresh control session. -/
def oneFile (path content : Str) : World :=
  { fs := fun p => if p = path then .ok content else .error "no such file or directory".toList
    sent := [] }

/-- A fresh listener, as `NewOnionListener` builds it before `initOnion`. -/
def freshListener (options : OnionListenerOptions) : OnionListener :=
  { options := some options, controller := none, onionInfo := none, localListener := none }

/-- The zero value `OnionListener{}`: every field nil. -/
def zeroListener : OnionListener :=
  { options := none, controller := none, onionInfo := none, localListener := none }

/-- A listener in the Listening state whose registered service id is `serviceId`. -/
def listeningListener (options : OnionListenerOptions) (serviceId : Str) : OnionListener :=
  { options := some options
    controller := some { network := options.ControlNetwork, addr := options.ControlAddr }
    onionInfo := some { OnionId := serviceId, KeyType := [], Key := [], RawResponse := [] }
    localListener := some { addr := options.LocalAddr } }

/-! ## Facts about `Index`, `occurrences` and `Split` -/

theorem Index_nil (sep : Str) (h : sep ≠ []) : Index [] sep = none := by
  cases sep with
  | nil => exact absurd rfl h
  | cons a t => simp [Index, List.isPrefixOf]

theorem Index_eq_head_occurrences (sep s : Str) : Index s sep = (occurrences sep s).head? := by
  induction s with
  | nil => simp only [Index, occurrences]; split <;> rfl
  | cons c s ih =>
    simp only [Index, occurrences]
    split
    · rfl
    · rw [ih]; cases occurrences sep s <;> rfl

theorem mem_occurrences (sep s : Str) (i : Nat) :
    i ∈ occurrences sep s ↔ i ≤ s.length ∧ sep <+: s.drop i := by
  induction s generalizing i with
  | nil =>
    simp only [occurrences, List.isPrefixOf_iff_prefix]
    split
    · rename_i h; simp only [List.mem_singleton, List.length_nil, Nat.le_zero_eq,
        List.drop_nil]; exact ⟨fun hi => ⟨hi, h⟩, fun hi => hi.1⟩
    · rename_i h; simp only [List.not_mem_nil, List.length_nil, Nat.le_zero_eq, List.drop_nil,
        false_iff, not_and]; exact fun _ => h
  | cons c s ih =>
    simp only [occurrences, List.isPrefixOf_iff_prefix, List.mem_append, List.mem_map]
    cases i with
    | zero =>
      simp only [List.drop_zero, List.length_cons, Nat.zero_le, true_and]
      constructor
      · rintro (h | ⟨a, _, ha⟩)
        · split at h
          · assumption
          · simp at h
        · omega
      · intro h; left; simp [h]
    | succ j =>
      simp only [List.drop_succ_cons, List.length_cons, Nat.add_le_add_iff_right]
      constructor
      · rintro (h | ⟨a, ha, haj⟩)
        · split at h <;> simp at h
        · have : a = j := by omega
          subst this; exact (ih a).1 ha
      · intro h; right; exact ⟨j, (ih j).2 h, rfl⟩

/-- The fuel of `splitLoop` does not matter once it reaches the length of the string. -/
theorem splitLoop_fuel (sep : Str) (hsep : sep ≠ []) :
    ∀ (n m : Nat) (s : Str), s.length ≤ n → s.length ≤ m → splitLoop sep n s = splitLoop sep m s := by
  have hlen : 0 < sep.length := List.length_pos.2 hsep
  intro n
  induction n with
  | zero =>
    intro m s hn _
    have hs : s = [] := List.length_eq_zero.1 (Nat.le_zero.1 hn)
    subst hs
    cases m with
    | zero => rfl
    | succ m => simp [splitLoop, Index_nil sep hsep]
  | succ n ih =>
    intro m s hn hm
    cases m with
    | zero =>
      have hs : s = [] := List.length_eq_zero.1 (Nat.le_zero.1 hm)
      subst hs
      simp [splitLoop, Index_nil sep hsep]
    | succ m =>
      simp only [splitLoop]
      cases hI : Index s sep with
      | none => rfl
      | some i =>
        simp only
        rw [ih m (s.drop (i + sep.length))]
        · simp only [List.length_drop]; omega
        · simp only [List.length_drop]; omega

/-- One step of `strings.Split`: no occurrence, or a cut at the leftmost one. -/
theorem Split_eq (s sep : Str) (hsep : sep ≠ []) :
    Split s sep =
      match Index s sep with
      | none => [s]
      | some m => s.take m :: Split (s.drop (m + sep.length)) sep := by
  have hlen : 0 < sep.length := List.length_pos.2 hsep
  unfold Split
  cases hl : s.length with
  | zero =>
    have hs : s = [] := List.length_eq_zero.1 hl
    subst hs
    simp [splitLoop, Index_nil sep hsep]
  | succ n =>
    simp only [splitLoop]
    cases hI : Index s sep with
    | none => rfl
    | some i =>
      simp only
      rw [splitLoop_fuel sep hsep n (s.drop (i + sep.length)).length]
      · simp only [List.length_drop]; omega
      · exact le_rfl

theorem Split_of_Index_none (s sep : Str) (h : Index s sep = none) : Split s sep = [s] := by
  unfold Split
  cases s.length with
  | zero => rfl
  | succ n => simp [splitLoop, h]

theorem index_Split_zero (s sep : Str) : ∃ f, index (Split s sep) 0 = .ok f := by
  unfold Split
  cases s.length with
  | zero => exact ⟨s, rfl⟩
  | succ n =>
    simp only [splitLoop]
    cases Index s sep with
    | none => exact ⟨s, rfl⟩
    | some m => exact ⟨s.take m, rfl⟩

theorem Index_none_iff_no_occurrence (s sep : Str) : Index s sep = none ↔ ¬ sep <:+: s := by
  rw [Index_eq_head_occurrences, List.head?_eq_none_iff, List.eq_nil_iff_forall_not_mem]
  constructor
  · intro h hin
    obtain ⟨t, hpre, hsuf⟩ := List.infix_iff_prefix_suffix.1 hin
    apply h (s.length - t.length)
    rw [mem_occurrences]
    refine ⟨Nat.sub_le _ _, ?_⟩
    rw [← List.suffix_iff_eq_drop.1 hsuf]
    exact hpre
  · intro h i hi
    rw [mem_occurrences] at hi
    exact h (List.infix_iff_prefix_suffix.2 ⟨s.drop i, hi.2, List.drop_suffix i s⟩)

/-- An occurrence in the right part of a string is an occurrence in the whole string. -/
theorem occurrences_append_right (sep a b : Str) (j : Nat) (h : j ∈ occurrences sep b) :
    a.length + j ∈ occurrences sep (a ++ b) := by
  rw [mem_occurrences] at h ⊢
  refine ⟨by simp only [List.length_append]; omega, ?_⟩
  rw [List.drop_append]
  exact h.2

/-- Where the separator occurs once only, `Split` yields the text before and the text behind. -/
theorem Split_unique (sep a b : Str) (hsep : sep ≠ [])
    (h : occurrences sep (a ++ sep ++ b) = [a.length]) :
    Split (a ++ sep ++ b) sep = [a, b] := by
  have hlen : 0 < sep.length := List.length_pos.2 hsep
  have hI : Index (a ++ sep ++ b) sep = some a.length := by
    rw [Index_eq_head_occurrences, h]; rfl
  have hb : Index b sep = none := by
    rw [Index_eq_head_occurrences, List.head?_eq_none_iff, List.eq_nil_iff_forall_not_mem]
    intro j hj
    have := occurrences_append_right sep (a ++ sep) b j hj
    rw [h, List.mem_singleton, List.length_append] at this
    omega
  rw [Split_eq _ _ hsep, hI]
  simp only [List.append_assoc, List.take_left]
  rw [← List.append_assoc, ← List.length_append, List.drop_left, Split_of_Index_none b sep hb]

theorem Index_single_of_not_mem (c : Char) (s : Str) (h : c ∉ s) : Index s [c] = none := by
  induction s with
  | nil => rfl
  | cons d s ih =>
    simp only [List.mem_cons, not_or] at h
    simp [Index, List.isPrefixOf, ih h.2, h.1, Ne.symm h.1]

theorem Index_single_append (c : Char) (a b : Str) (h : c ∉ a) :
    Index (a ++ c :: b) [c] = some a.length := by
  induction a with
  | nil => simp [Index, List.isPrefixOf]
  | cons d a ih =>
    simp only [List.mem_cons, not_or] at h
    simp [Index, List.isPrefixOf, ih h.2, h.1, Ne.symm h.1]

/-- A one-character separator: the first field ends at the first occurrence. -/
theorem Split_single_append (c : Char) (a b : Str) (h : c ∉ a) :
    Split (a ++ c :: b) [c] = a :: Split b [c] := by
  rw [Split_eq _ _ (List.cons_ne_nil c []), Index_single_append c a b h]
  simp only [List.take_left, List.length_singleton]
  have : a ++ c :: b = (a ++ [c]) ++ b := by simp
  rw [this, ← List.length_singleton c, ← List.length_append, List.drop_left]

theorem Split_single_of_not_mem (c : Char) (s : Str) (h : c ∉ s) : Split s [c] = [s] :=
  Split_of_Index_none s [c] (Index_single_of_not_mem c s h)

/-- A one-character separator: the first field is the text before its first occurrence. -/
theorem index_Split_single_zero (c : Char) (a : Str) (h : c ∉ a) (rest : Str) :
    index (Split (a ++ c :: rest) [c]) 0 = .ok a := by
  rw [Split_single_append c a rest h]; rfl

theorem take_Index_single (c : Char) (s : Str) :
    (match Index s [c] with
      | none => s
      | some m => s.take m) = s.takeWhile (· != c) := by
  induction s with
  | nil => rfl
  | cons d s ih =>
    by_cases hcd : c = d
    · subst hcd; simp [Index, List.isPrefixOf, List.takeWhile]
    · have hb : (d != c) = true := by simp [Ne.symm hcd]
      have htw : (d :: s).takeWhile (· != c) = d :: s.takeWhile (· != c) := by
        simp only [List.takeWhile, hb]
      rw [htw, ← ih]
      simp only [Index, List.isPrefixOf, beq_iff_eq, hcd, Bool.and_true, Bool.false_eq_true,
        if_false]
      cases Index s [c] <;> rfl

/-- A one-character separator: the first field is the longest stretch without it. -/
theorem index_Split_single_takeWhile (c : Char) (s : Str) :
    index (Split s [c]) 0 = .ok (s.takeWhile (· != c)) := by
  rw [Split_eq _ _ (List.cons_ne_nil c []), ← take_Index_single]
  cases Index s [c] <;> rfl

/-- The `%d` rendering on a few ports. -/
theorem fmtInt_examples :
    fmtInt 0 = "0".toList ∧ fmtInt 80 = "80".toList ∧ fmtInt 65535 = "65535".toList
      ∧ fmtInt (-443) = "-443".toList := by
  decide

theorem AddOnion_sent (env : Env) (w : World) (n : Int) (a t m : Str) (new : Bool) :
    (AddOnion env w n a t m new).2.sent = w.sent ++ [addOnionRequest n a t m new] := by
  simp only [AddOnion]
  cases env.request w.sent (addOnionRequest n a t m new) <;> rfl

/-! ## The claims -/

/-- C4 (as amended): a reply body `pre ServiceID=id mid PrivateKey=kt:km\n post` in
which each marker occurs once only, `id` has no space, `kt` no colon and `km` neither a
line break nor a colon, parses with `requestedNewKey = true` to the OnionInfo with
OnionId `id`, KeyType `kt` and Key `km`. -/
theorem C4_parse_reply_fields (pre id mid kt km post : Str)
    (hsid : occurrences "ServiceID=".toList (replyBody pre id mid kt km post) = [pre.length])
    (hpk : occurrences "PrivateKey=".toList (replyBody pre id mid kt km post)
      = [(pre ++ "ServiceID=".toList ++ id ++ " ".toList ++ mid).length])
    (hid : ' ' ∉ id) (hkt : ':' ∉ kt) (hnl : '\n' ∉ km) (hcolon : ':' ∉ km) :
    parseAddOnionReply (replyBody pre id mid kt km post) true
      = .ok { OnionId := id, KeyType := kt, Key := km,
              RawResponse := replyBody pre id mid kt km post } := by
  have e1 : replyBody pre id mid kt km post
      = pre ++ "ServiceID=".toList
          ++ (id ++ ' ' :: (mid ++ "PrivateKey=".toList ++ kt ++ ":".toList ++ km
            ++ "\n".toList ++ post)) := by
    simp [replyBody]
  have e2 : replyBody pre id mid kt km post
      = (pre ++ "ServiceID=".toList ++ id ++ " ".toList ++ mid) ++ "PrivateKey=".toList
          ++ (kt ++ ':' :: (km ++ '\n' :: post)) := by
    simp [replyBody]
  have s1 := Split_unique "ServiceID=".toList pre _ (by decide) (e1 ▸ hsid)
  have s2 := Split_unique "PrivateKey=".toList _ _ (by decide) (e2 ▸ hpk)
  rw [← e1] at s1
  rw [← e2] at s2
  have s3 : index (Split (km ++ '\n' :: post) [':']) 0
      = .ok (km ++ '\n' :: post.takeWhile (· != ':')) := by
    rw [index_Split_single_takeWhile, List.takeWhile_append_of_pos]
    · simp [List.takeWhile]
    · intro a ha; simp only [bne_iff_ne, ne_eq]; rintro rfl; exact hcolon ha
  unfold parseAddOnionReply
  simp only [s1, s2, index, List.get?, if_true]
  have t1 : " ".toList = [' '] := rfl
  have t2 : ":".toList = [':'] := rfl
  have t3 : "\n".toList = ['\n'] := rfl
  rw [t1, t2, t3, Split_single_append ' ' id _ hid, Split_single_append ':' kt _ hkt]
  simp only [List.get?]
  have s3b := s3
  unfold index at s3b
  revert s3b
  cases hh : (Split (km ++ '\n' :: post) [':']).get? 0 with
  | none => intro h; simp at h
  | some f =>
    intro h
    simp only [Outcome.ok.injEq] at h
    subst h
    simp only [Split_single_append '\n' km _ hnl, List.get?]

/-- C4, witness: id `abc123`, key type `ED25519-V3`, key material `base64stuff`. -/
theorem C4_parse_reply_fields_witness :
    parseAddOnionReply "250-ServiceID=abc123 250-PrivateKey=ED25519-V3:base64stuff\n250 OK".toList
        true
      = .ok { OnionId := "abc123".toList, KeyType := "ED25519-V3".toList,
              Key := "base64stuff".toList,
              RawResponse :=
                "250-ServiceID=abc123 250-PrivateKey=ED25519-V3:base64stuff\n250 OK".toList } :=
  C4_parse_reply_fields "250-".toList "abc123".toList "250-".toList "ED25519-V3".toList
    "base64stuff".toList "250 OK".toList (by decide) (by decide) (by decide) (by decide)
    (by decide) (by decide)

/-- C4, counterexample: the key material `base64:stuff` has no line break, yet the
parsed Key is `base64`, cut at the colon. -/
theorem C4_key_cut_at_colon :
    replyBody [] "abc123".toList [] "ED25519-V3".toList "base64:stuff".toList []
        = "ServiceID=abc123 PrivateKey=ED25519-V3:base64:stuff\n".toList
      ∧ occurrences "ServiceID=".toList
          "ServiceID=abc123 PrivateKey=ED25519-V3:base64:stuff\n".toList = [0]
      ∧ occurrences "PrivateKey=".toList
          "ServiceID=abc123 PrivateKey=ED25519-V3:base64:stuff\n".toList = [17]
      ∧ ' ' ∉ "abc123".toList ∧ ':' ∉ "ED25519-V3".toList ∧ '\n' ∉ "base64:stuff".toList
      ∧ parseAddOnionReply "ServiceID=abc123 PrivateKey=ED25519-V3:base64:stuff\n".toList true
        = .ok { OnionId := "abc123".toList, KeyType := "ED25519-V3".toList,
                Key := "base64".toList,
                RawResponse := "ServiceID=abc123 PrivateKey=ED25519-V3:base64:stuff\n".toList }
      ∧ "base64".toList ≠ "base64:stuff".toList := by
  decide

/-- C5: the command line `AddOnion` passes to `Request` is `ADD_ONION `, the key
specifier (`NEW:BEST` when a new key is requested, else `keyType:keyContent`),
` Port=<decimal port>,<target>` and the line feed. -/
theorem C5_addOnion_command_line (env : Env) (w : World) (n : Int) (a t m : Str) (new : Bool) :
    (AddOnion env w n a t m new).2.sent
        = w.sent ++ ["ADD_ONION ".toList
            ++ (if new = true then "NEW:BEST".toList else t ++ ":".toList ++ m)
            ++ " Port=".toList ++ fmtInt n ++ ",".toList ++ a ++ "\n".toList]
      ∧ (AddOnion env w n a t m new).1
        = match env.request w.sent ("ADD_ONION ".toList
            ++ (if new = true then "NEW:BEST".toList else t ++ ":".toList ++ m)
            ++ " Port=".toList ++ fmtInt n ++ ",".toList ++ a ++ "\n".toList) with
          | .error e => .err e
          | .ok data => parseAddOnionReply data new := by
  have hreq : addOnionRequest n a t m new
      = "ADD_ONION ".toList ++ (if new = true then "NEW:BEST".toList else t ++ ":".toList ++ m)
          ++ " Port=".toList ++ fmtInt n ++ ",".toList ++ a ++ "\n".toList := by
    cases new <;> simp [addOnionRequest]
  rw [AddOnion_sent, ← hreq]
  refine ⟨rfl, ?_⟩
  simp only [AddOnion]
  cases env.request w.sent (addOnionRequest n a t m new) <;> rfl

/-- C9: with no colon in key type and key material, `writeOnionKeyFile` leaves the
single line `keyType:keyMaterial` in the key file, and `readOnionKeyFile` then returns
exactly that pair. -/
theorem C9_key_file_round_trip (env : Env) (o : OnionListener) (w : World)
    (opts : OnionListenerOptions) (keyType keyMaterial : Str)
    (ho : o.options = some opts) (hw : env.writeErr = none)
    (hkt : ':' ∉ keyType) (hkm : ':' ∉ keyMaterial) :
    (writeOnionKeyFile env o w keyType keyMaterial).1 = .ok ()
      ∧ (writeOnionKeyFile env o w keyType keyMaterial).2.fs opts.OnionKeyFile
          = .ok (keyType ++ ":".toList ++ keyMaterial)
      ∧ readOnionKeyFile o (writeOnionKeyFile env o w keyType keyMaterial).2
          = .ok (keyType, keyMaterial) := by
  have t2 : ":".toList = [':'] := rfl
  simp only [writeOnionKeyFile, readOnionKeyFile, ho, hw, if_true, true_and, t2,
    List.append_assoc, List.singleton_append, Split_single_append ':' keyType keyMaterial hkt,
    Split_single_of_not_mem ':' keyMaterial hkm]
  rfl

/-- C9, witness: key type `ED25519-V3`, key material `XYZ`. -/
theorem C9_key_file_round_trip_witness :
    (writeOnionKeyFile (torAnswers []) (freshListener exampleOptions) noFiles
        "ED25519-V3".toList "XYZ".toList).1 = .ok ()
      ∧ (writeOnionKeyFile (torAnswers []) (freshListener exampleOptions) noFiles
          "ED25519-V3".toList "XYZ".toList).2.fs "echoOnionKey".toList
          = .ok "ED25519-V3:XYZ".toList
      ∧ readOnionKeyFile (freshListener exampleOptions)
          (writeOnionKeyFile (torAnswers []) (freshListener exampleOptions) noFiles
            "ED25519-V3".toList "XYZ".toList).2
          = .ok ("ED25519-V3".toList, "XYZ".toList) :=
  C9_key_file_round_trip (torAnswers []) (freshListener exampleOptions) noFiles exampleOptions
    "ED25519-V3".toList "XYZ".toList rfl rfl (by decide) (by decide)

/-- C10: with registered service id `s` and virtual port `p`, `Addr().String()` is
`s`, then `.onion:`, then the decimal rendering of `p`. -/
theorem C10_addr_string (o : OnionListener) (info : OnionInfo) (opts : OnionListenerOptions)
    (hi : o.onionInfo = some info) (ho : o.options = some opts) :
    ∃ a, Addr o = .ok a
      ∧ a.String = info.OnionId ++ ".onion:".toList ++ fmtInt opts.OnionServicePort := by
  refine ⟨{ network := "tor".toList,
            address := info.OnionId ++ ".onion:".toList ++ fmtInt opts.OnionServicePort }, ?_, rfl⟩
  simp only [Addr, hi, ho]

/-- C10, witness: service id `exampleid` and virtual port 80 give `exampleid.onion:80`. -/
theorem C10_addr_string_witness :
    ∃ a, Addr (listeningListener exampleOptions "exampleid".toList) = .ok a
      ∧ a.String = "exampleid.onion:80".toList :=
  C10_addr_string (listeningListener exampleOptions "exampleid".toList) _ exampleOptions rfl rfl

/-- Without the `ServiceID=` marker, or without the `PrivateKey=` marker when a new key
was requested, the reply parsing of `AddOnion` panics: `fields[1]` is out of range. -/
theorem parseAddOnionReply_panics_of_missing_marker (data : Str) (new : Bool)
    (h : ¬ "ServiceID=".toList <:+: data ∨ (new = true ∧ ¬ "PrivateKey=".toList <:+: data)) :
    parseAddOnionReply data new = .panic := by
  unfold parseAddOnionReply
  by_cases hs : "ServiceID=".toList <:+: data
  · obtain ⟨hnew, hp⟩ := h.resolve_left (not_not.2 hs)
    subst hnew
    have hI := (Index_none_iff_no_occurrence data "PrivateKey=".toList).2 hp
    simp only [Split_of_Index_none _ _ hI]
    obtain ⟨f, hf⟩ := index_Split_zero
      (match index (Split data "ServiceID=".toList) 1 with
        | .ok f1 => f1
        | _ => []) " ".toList
    cases h1 : index (Split data "ServiceID=".toList) 1 with
    | panic => rfl
    | err e => simp [index] at h1; split at h1 <;> simp at h1
    | ok f1 =>
      rw [h1] at hf
      simp only [hf, if_true]
      rfl
  · have hI := (Index_none_iff_no_occurrence data "ServiceID=".toList).2 hs
    simp only [Split_of_Index_none _ _ hI]
    rfl

/-- C3 (the code at the failing inputs): a reply body without `ServiceID=`, and one
with `ServiceID=` but without `PrivateKey=` when a new key was requested, make the
reply parsing of `AddOnion` panic instead of returning an error. -/
theorem C3_parse_panics_on_missing_marker :
    parseAddOnionReply "250 OK".toList false = .panic
      ∧ parseAddOnionReply "250 OK".toList true = .panic
      ∧ parseAddOnionReply "250-ServiceID=abc123 250 OK".toList true = .panic := by
  decide

/-- C6 (the code at the failing inputs): on the zero-valued listener `Accept` panics on
the nil `onionInfo`; with a registered service and no local listener it goes past the
guard and panics calling through the nil listener.  Only an OnionInfo with an empty
service id gets the error. -/
theorem C6_accept_before_listening (env : Env) :
    Accept env zeroListener = .panic
      ∧ Accept env { freshListener exampleOptions with
          onionInfo := some { OnionId := "abc123".toList, KeyType := [], Key := [],
                              RawResponse := [] } } = .panic
      ∧ Accept env { freshListener exampleOptions with
          onionInfo := some { OnionId := [], KeyType := [], Key := [], RawResponse := [] } }
        = .err "OnionListener: onion service not initialized.\n".toList := by
  refine ⟨rfl, ?_, rfl⟩
  simp [Accept, freshListener]

/-- C1 (the code at the failing input): no key file yet, a key is requested and the
reply carries `ED25519-V3:base64stuff`; `NewOnionListener` succeeds, the OnionInfo
holds that key, and the text written to the key file is the lone colon `:`. -/
theorem C1_generated_key_not_persisted :
    (NewOnionListener
        (torAnswers "250-ServiceID=abc123 250-PrivateKey=ED25519-V3:base64stuff\n250 OK".toList)
        (some exampleOptions) noFiles).1
      = .ok { listeningListener exampleOptions "abc123".toList with
          onionInfo := some
            { OnionId := "abc123".toList, KeyType := "ED25519-V3".toList,
              Key := "base64stuff".toList,
              RawResponse :=
                "250-ServiceID=abc123 250-PrivateKey=ED25519-V3:base64stuff\n250 OK".toList } }
    ∧ (NewOnionListener
        (torAnswers "250-ServiceID=abc123 250-PrivateKey=ED25519-V3:base64stuff\n250 OK".toList)
        (some exampleOptions) noFiles).2.sent
      = ["ADD_ONION NEW:BEST Port=80,127.0.0.1:8080\n".toList]
    ∧ (NewOnionListener
        (torAnswers "250-ServiceID=abc123 250-PrivateKey=ED25519-V3:base64stuff\n250 OK".toList)
        (some exampleOptions) noFiles).2.fs "echoOnionKey".toList
      = .ok ":".toList := by
  refine ⟨by decide, by decide, ?_⟩
  rfl

/-- C2 (the code at the failing input): the key file holds `ED25519-V3:XYZ`;
`NewOnionListener` succeeds and registers the service with that key, and afterwards
the key file holds the lone colon `:`, which reads back as the pair of empty strings. -/
theorem C2_loaded_key_overwritten :
    (NewOnionListener (torAnswers "250-ServiceID=abc123 250 OK".toList) (some exampleOptions)
        (oneFile "echoOnionKey".toList "ED25519-V3:XYZ".toList)).1
      = .ok { listeningListener exampleOptions "abc123".toList with
          onionInfo := some
            { OnionId := "abc123".toList, KeyType := [], Key := [],
              RawResponse := "250-ServiceID=abc123 250 OK".toList } }
    ∧ (NewOnionListener (torAnswers "250-ServiceID=abc123 250 OK".toList) (some exampleOptions)
        (oneFile "echoOnionKey".toList "ED25519-V3:XYZ".toList)).2.sent
      = ["ADD_ONION ED25519-V3:XYZ Port=80,127.0.0.1:8080\n".toList]
    ∧ (NewOnionListener (torAnswers "250-ServiceID=abc123 250 OK".toList) (some exampleOptions)
        (oneFile "echoOnionKey".toList "ED25519-V3:XYZ".toList)).2.fs "echoOnionKey".toList
      = .ok ":".toList
    ∧ readOnionKeyFile (freshListener exampleOptions)
        (NewOnionListener (torAnswers "250-ServiceID=abc123 250 OK".toList) (some exampleOptions)
          (oneFile "echoOnionKey".toList "ED25519-V3:XYZ".toList)).2
      = .ok ([], []) := by
  refine ⟨by decide, by decide, ?_, by decide⟩
  rfl

/-- Whenever `initOnion` succeeds with a key file configured, the key file holds the
lone colon: the pair written is the pair of never-assigned locals. -/
theorem initOnion_key_file_after (env : Env) (o : OnionListener) (w : World)
    (opts : OnionListenerOptions) (ho : o.options = some opts) (hk : opts.OnionKeyFile ≠ [])
    (hok : (initOnion env o w).1 = .ok ()) :
    (initOnion env o w).2.2.fs opts.OnionKeyFile = .ok [':'] := by
  revert hok
  cases hd : env.dialErr <;> cases ha : env.authErr <;> cases hw : env.writeErr <;>
    cases hl : env.listenErr <;>
    simp only [initOnion, ho, controlAuth, writeOnionKeyFile, hk, ne_eq, not_false_eq_true,
      if_true, hd, ha, hw, hl] <;>
    repeat' split
  all_goals simp_all

theorem isDelOnion_addOnionRequest (n : Int) (a t m : Str) (new : Bool) :
    isDelOnion (addOnionRequest n a t m new) = false := by
  cases new <;> simp [isDelOnion, addOnionRequest, List.isPrefixOf]

/-- C7 (as amended): when ADD_ONION succeeded with OnionInfo `info` and binding the
local listener then fails, `initOnion` returns the listen error and issues no
DEL_ONION: it passes nothing to `Request` after the ADD_ONION request, the OnionInfo
stays recorded and no local listener is bound.  Here `kt`, `kc` are the key type and
key content that the first step of `initOnion` loaded (both empty without a key file or
after a read error), and `w1` is the state `AddOnion` returned. -/
theorem C7_no_rollback_on_listen_failure (env : Env) (o : OnionListener) (w w1 : World)
    (opts : OnionListenerOptions) (kt kc : Str) (info : OnionInfo) (e : Str)
    (ho : o.options = some opts) (hd : env.dialErr = none) (ha : env.authErr = none)
    (hkey : (opts.OnionKeyFile = [] ∧ kt = [] ∧ kc = [])
      ∨ (opts.OnionKeyFile ≠ [] ∧ readOnionKeyFile o w = .ok (kt, kc))
      ∨ (opts.OnionKeyFile ≠ [] ∧ (∃ e1, readOnionKeyFile o w = .err e1) ∧ kt = [] ∧ kc = []))
    (hadd : (if kt ≠ [] then
          AddOnion env w opts.OnionServicePort opts.LocalAddr kt kc false
        else
          AddOnion env w opts.OnionServicePort opts.LocalAddr [] [] true) = (.ok info, w1))
    (hw : opts.OnionKeyFile = [] ∨ env.writeErr = none) (hl : env.listenErr = some e) :
    (initOnion env o w).1 = .err (errorf "OnionListener: local TCP listen error: ".toList e)
      ∧ (initOnion env o w).2.1.onionInfo = some info
      ∧ (initOnion env o w).2.1.localListener = none
      ∧ (initOnion env o w).2.2.sent = w1.sent
      ∧ (initOnion env o w).2.2.sent.filter isDelOnion = w.sent.filter isDelOnion := by
  have hw1 : w1.sent.filter isDelOnion = w.sent.filter isDelOnion := by
    have hs : ∃ t m new,
        w1.sent = w.sent ++ [addOnionRequest opts.OnionServicePort opts.LocalAddr t m new] := by
      by_cases hkt : kt = []
      · simp only [hkt, ne_eq, not_true_eq_false, if_false] at hadd
        have h := AddOnion_sent env w opts.OnionServicePort opts.LocalAddr [] [] true
        rw [hadd] at h
        exact ⟨_, _, _, h⟩
      · simp only [hkt, ne_eq, not_false_eq_true, if_true] at hadd
        have h := AddOnion_sent env w opts.OnionServicePort opts.LocalAddr kt kc false
        rw [hadd] at h
        exact ⟨_, _, _, h⟩
    obtain ⟨t, m, new, hs⟩ := hs
    rw [hs, List.filter_append]
    simp [isDelOnion_addOnionRequest]
  have key : (initOnion env o w).1
        = .err (errorf "OnionListener: local TCP listen error: ".toList e)
      ∧ (initOnion env o w).2.1.onionInfo = some info
      ∧ (initOnion env o w).2.1.localListener = none
      ∧ (initOnion env o w).2.2.sent = w1.sent := by
    rcases hkey with ⟨hk, rfl, rfl⟩ | ⟨hk, hread⟩ | ⟨hk, ⟨e1, hread⟩, rfl, rfl⟩
    · simp only [ne_eq, not_true_eq_false, if_false] at hadd
      simp only [initOnion, ho, controlAuth, writeOnionKeyFile, ne_eq, hd, ha, hl, hk,
        not_true_eq_false, if_false, hadd, and_self]
    · have hwe : env.writeErr = none := hw.resolve_left hk
      by_cases hkt : kt = []
      · simp only [hkt, ne_eq, not_true_eq_false, if_false] at hadd
        simp only [initOnion, ho, controlAuth, writeOnionKeyFile, ne_eq, hd, ha, hl, hk,
          not_false_eq_true, if_true, hread, hkt, not_true_eq_false, if_false, hadd, hwe,
          and_self]
      · simp only [hkt, ne_eq, not_false_eq_true, if_true] at hadd
        simp only [initOnion, ho, controlAuth, writeOnionKeyFile, ne_eq, hd, ha, hl, hk,
          not_false_eq_true, if_true, hread, hkt, hadd, hwe, and_self]
    · have hwe : env.writeErr = none := hw.resolve_left hk
      simp only [ne_eq, not_true_eq_false, if_false] at hadd
      simp only [initOnion, ho, controlAuth, writeOnionKeyFile, ne_eq, hd, ha, hl, hk,
        not_false_eq_true, if_true, hread, not_true_eq_false, if_false, hadd, hwe, and_self]
  obtain ⟨h1, h2, h3, h4⟩ := key
  exact ⟨h1, h2, h3, h4, by rw [h4, hw1]⟩

/-- C7, witness: the options of the example with the key `ED25519-V3:XYZ` on disk, a
daemon that registers `abc123`, and a local address that cannot be bound. -/
theorem C7_no_rollback_on_listen_failure_witness :
    (initOnion (torAnswersNoBind "250-ServiceID=abc123 250 OK".toList)
        (freshListener exampleOptions)
        (oneFile "echoOnionKey".toList "ED25519-V3:XYZ".toList)).1
      = .err "OnionListener: local TCP listen error: bind: address already in use\n".toList
    ∧ (initOnion (torAnswersNoBind "250-ServiceID=abc123 250 OK".toList)
        (freshListener exampleOptions)
        (oneFile "echoOnionKey".toList "ED25519-V3:XYZ".toList)).2.1.onionInfo
      = some { OnionId := "abc123".toList, KeyType := [], Key := [],
               RawResponse := "250-ServiceID=abc123 250 OK".toList }
    ∧ (initOnion (torAnswersNoBind "250-ServiceID=abc123 250 OK".toList)
        (freshListener exampleOptions)
        (oneFile "echoOnionKey".toList "ED25519-V3:XYZ".toList)).2.1.localListener = none
    ∧ (initOnion (torAnswersNoBind "250-ServiceID=abc123 250 OK".toList)
        (freshListener exampleOptions)
        (oneFile "echoOnionKey".toList "ED25519-V3:XYZ".toList)).2.2.sent
      = ["ADD_ONION ED25519-V3:XYZ Port=80,127.0.0.1:8080\n".toList]
    ∧ (initOnion (torAnswersNoBind "250-ServiceID=abc123 250 OK".toList)
        (freshListener exampleOptions)
        (oneFile "echoOnionKey".toList "ED25519-V3:XYZ".toList)).2.2.sent.filter isDelOnion
      = [] :=
  C7_no_rollback_on_listen_failure (torAnswersNoBind "250-ServiceID=abc123 250 OK".toList)
    (freshListener exampleOptions) (oneFile "echoOnionKey".toList "ED25519-V3:XYZ".toList)
    { oneFile "echoOnionKey".toList "ED25519-V3:XYZ".toList with
      sent := ["ADD_ONION ED25519-V3:XYZ Port=80,127.0.0.1:8080\n".toList] }
    exampleOptions "ED25519-V3".toList "XYZ".toList
    { OnionId := "abc123".toList, KeyType := [], Key := [],
      RawResponse := "250-ServiceID=abc123 250 OK".toList }
    "bind: address already in use".toList rfl rfl rfl
    (Or.inr (Or.inl ⟨by decide, by decide⟩)) rfl (Or.inr rfl) rfl

/-- C7, counterexample: ADD_ONION registers `abc123`, binding the local listener fails;
`initOnion` returns the listen error having sent the ADD_ONION line and nothing else,
so no DEL_ONION for `abc123`, and the OnionInfo is still recorded. -/
theorem C7_listen_failure_sends_no_del_onion :
    (initOnion (torAnswersNoBind "250-ServiceID=abc123 250-PrivateKey=RSA1024:k\n".toList)
        (freshListener exampleOptions) noFiles).1
      = .err "OnionListener: local TCP listen error: bind: address already in use\n".toList
    ∧ (initOnion (torAnswersNoBind "250-ServiceID=abc123 250-PrivateKey=RSA1024:k\n".toList)
        (freshListener exampleOptions) noFiles).2.2.sent
      = ["ADD_ONION NEW:BEST Port=80,127.0.0.1:8080\n".toList]
    ∧ "DEL_ONION abc123\n".toList ∉
        (initOnion (torAnswersNoBind "250-ServiceID=abc123 250-PrivateKey=RSA1024:k\n".toList)
          (freshListener exampleOptions) noFiles).2.2.sent
    ∧ ((initOnion (torAnswersNoBind "250-ServiceID=abc123 250-PrivateKey=RSA1024:k\n".toList)
        (freshListener exampleOptions) noFiles).2.1.onionInfo.map (·.OnionId))
      = some "abc123".toList := by
  decide

end Bulb
